import Mathlib

/-!
Verification of the index/vector helpers in `src/neo4j_genai/indexes.py` and the
example pipeline components in `examples/pipeline/kg_builder.py` of the
neo4j-genai-python repository, via a shallow embedding in Lean.

The database driver is modelled as a function from a statement to an execution
outcome; each helper records the list of statements it actually sent together
with the Python-level outcome (normal return or raised exception).
-/

namespace Neo4jGenai

/-- A value bound as a query parameter: a string, an integer, or a vector of
numbers (Python floats are embedded as rationals). -/
inductive ParamValue where
  | str (s : String)
  | int (i : Int)
  | vec (v : List Rat)
  deriving DecidableEq, Repr

/-- A Cypher statement as handed to `driver.execute_query`: the query text and
the dictionary of bound parameters (embedded as an association list in the
order the source builds it). -/
structure Statement where
  query : String
  params : List (String × ParamValue)
  deriving DecidableEq, Repr

/-- The behaviour of one `driver.execute_query` call: success, a
`neo4j.exceptions.ClientError` with a message, or any other exception
(e.g. a transport error) with a message. -/
inductive ExecOutcome where
  | ok
  | clientError (message : String)
  | otherError (message : String)
  deriving DecidableEq, Repr

/-- A Python-level exception escaping one of the helper functions. -/
inductive PyError where
  | neo4jIndexError (message : String)
  | neo4jInsertionError (message : String)
  | clientError (message : String)
  | otherError (message : String)
  deriving DecidableEq, Repr

/-- Normal return or raised exception. -/
inductive PyOutcome where
  | ok
  | raised (e : PyError)
  deriving DecidableEq, Repr

/-- The observable effect of one helper call: the statements sent to the
driver, in order, and the Python-level outcome. -/
structure CallResult where
  sent : List Statement
  outcome : PyOutcome
  deriving DecidableEq, Repr

/-- A driver is a function from the statement executed to the outcome of that
execution. -/
def Driver : Type := Statement → ExecOutcome

/-- The shared `try: driver.execute_query(...) except ClientError as e: raise
Wrapped(...)` shape of all four helpers: the statement is always sent; a
`ClientError` is wrapped by `wrap` applied to its message; any other exception
propagates unchanged. -/
def sendCatchingClient (driver : Driver) (stmt : Statement)
    (wrap : String → PyError) : CallResult :=
  match driver stmt with
  | ExecOutcome.ok => { sent := [stmt], outcome := PyOutcome.ok }
  | ExecOutcome.clientError m => { sent := [stmt], outcome := PyOutcome.raised (wrap m) }
  | ExecOutcome.otherError m => { sent := [stmt], outcome := PyOutcome.raised (PyError.otherError m) }

/-- Modelled from the spec: the pydantic model `VectorIndexModel` lives in
`neo4j_genai/types.py`, which is not among the source files; per the spec,
`createVectorIndex` "validates that dimensions is a positive integer and
similarityFunction ∈ \x7beuclidean, cosine\x7d". -/
def vectorIndexModelValid (dimensions : Int) (similarity_fn : String) : Bool :=
  decide (0 < dimensions) && (similarity_fn == "euclidean" || similarity_fn == "cosine")

/-- Modelled from the spec: the message of the `Neo4jIndexError` raised when
`VectorIndexModel` validation fails; the source interpolates the pydantic
error list, abstracted here to a fixed placeholder. -/
def vectorIndexValidationMessage : String :=
  "Error for inputs to create_vector_index [validation errors]"

/-- The query text built by `create_vector_index` (f-string interpolating the
label and the embedding property; index name, dimensions and similarity
function are left as `$`-parameters). -/
def vectorIndexQueryText (label embedding_property : String) : String :=
  "CREATE VECTOR INDEX $name FOR (n:" ++ label ++ ") ON n." ++ embedding_property ++
    " OPTIONS \x7b indexConfig: \x7b `vector.dimensions`: toInteger($dimensions), `vector.similarity_function`: $similarity_fn \x7d \x7d"

/-- The statement `create_vector_index` executes. -/
def vectorIndexStatement (name label embedding_property : String)
    (dimensions : Int) (similarity_fn : String) : Statement :=
  { query := vectorIndexQueryText label embedding_property,
    params := [("name", ParamValue.str name),
               ("dimensions", ParamValue.int dimensions),
               ("similarity_fn", ParamValue.str similarity_fn)] }

/-- `create_vector_index` from `src/neo4j_genai/indexes.py`: validate the
inputs (raising `Neo4jIndexError` before any statement is sent on failure),
then execute the creation statement, wrapping a `ClientError` into
`Neo4jIndexError`. -/
def create_vector_index (driver : Driver) (name label embedding_property : String)
    (dimensions : Int) (similarity_fn : String) : CallResult :=
  if vectorIndexModelValid dimensions similarity_fn then
    sendCatchingClient driver
      (vectorIndexStatement name label embedding_property dimensions similarity_fn)
      (fun m => PyError.neo4jIndexError ("Neo4j vector index creation failed: " ++ m))
  else
    { sent := [],
      outcome := PyOutcome.raised (PyError.neo4jIndexError vectorIndexValidationMessage) }

/-- Modelled from the spec: the pydantic model `FulltextIndexModel` lives in
`neo4j_genai/types.py`, which is not among the source files; per the spec,
`createFulltextIndex` "validates `properties` is non-empty". -/
def fulltextIndexModelValid (node_properties : List String) : Bool :=
  !node_properties.isEmpty

/-- Modelled from the spec: the message of the `Neo4jIndexError` raised when
`FulltextIndexModel` validation fails. -/
def fulltextIndexValidationMessage : String :=
  "Error for inputs to create_fulltext_index: [validation errors]"

/-- The query text built by `create_fulltext_index` (f-string interpolating
the backtick-quoted label and each backtick-quoted property; the index name is
left as a `$`-parameter). -/
def fulltextIndexQueryText (label : String) (node_properties : List String) : String :=
  "CREATE FULLTEXT INDEX $name " ++ "FOR (n:`" ++ label ++ "`) ON EACH " ++
    "[" ++ String.intercalate ", " (node_properties.map (fun prop => "n.`" ++ prop ++ "`")) ++ "]"

/-- The statement `create_fulltext_index` executes. -/
def fulltextIndexStatement (name label : String) (node_properties : List String) : Statement :=
  { query := fulltextIndexQueryText label node_properties,
    params := [("name", ParamValue.str name)] }

/-- `create_fulltext_index` from `src/neo4j_genai/indexes.py`. -/
def create_fulltext_index (driver : Driver) (name label : String)
    (node_properties : List String) : CallResult :=
  if fulltextIndexModelValid node_properties then
    sendCatchingClient driver (fulltextIndexStatement name label node_properties)
      (fun m => PyError.neo4jIndexError ("Neo4j fulltext index creation failed " ++ m))
  else
    { sent := [],
      outcome := PyOutcome.raised (PyError.neo4jIndexError fulltextIndexValidationMessage) }

/-- The statement `drop_index_if_exists` executes. -/
def dropIndexStatement (name : String) : Statement :=
  { query := "DROP INDEX $name IF EXISTS",
    params := [("name", ParamValue.str name)] }

/-- `drop_index_if_exists` from `src/neo4j_genai/indexes.py`: no validation,
one drop statement, `ClientError` wrapped into `Neo4jIndexError`. -/
def drop_index_if_exists (driver : Driver) (name : String) : CallResult :=
  sendCatchingClient driver (dropIndexStatement name)
    (fun m => PyError.neo4jIndexError ("Dropping Neo4j index failed: " ++ m))

/-- The query text built by `upsert_vector` (a triple-quoted literal; no
interpolation at all). -/
def upsertVectorQueryText : String :=
  "\n        MATCH (n)\n        WHERE elementId(n) = $id\n        WITH n\n        CALL db.create.setNodeVectorProperty(n, $embedding_property, $vector)\n        RETURN n\n        "

/-- The statement `upsert_vector` executes. -/
def upsertVectorStatement (node_id : Int) (embedding_property : String)
    (vector : List Rat) : Statement :=
  { query := upsertVectorQueryText,
    params := [("id", ParamValue.int node_id),
               ("embedding_property", ParamValue.str embedding_property),
               ("vector", ParamValue.vec vector)] }

/-- `upsert_vector` from `src/neo4j_genai/indexes.py`: no validation, one
statement, `ClientError` wrapped into `Neo4jInsertionError`. -/
def upsert_vector (driver : Driver) (node_id : Int) (embedding_property : String)
    (vector : List Rat) : CallResult :=
  sendCatchingClient driver (upsertVectorStatement node_id embedding_property vector)
    (fun m => PyError.neo4jInsertionError ("Upserting vector to Neo4j failed: " ++ m))

/-- Per the spec, a ConfigurationError is an error "raised before any network
call": the call sent nothing and still raised. -/
def raisedBeforeAnySend (r : CallResult) : Bool :=
  r.sent.isEmpty &&
    (match r.outcome with
     | PyOutcome.ok => false
     | PyOutcome.raised _ => true)

/-- `needle` occurs literally in the rendered text `hay`. -/
def Interpolated (needle hay : String) : Prop :=
  ∃ pre post : String, hay = pre ++ needle ++ post

/-- `needle` is a prefix of `hay` (on character lists). -/
def charsPrefixOf : List Char → List Char → Bool
  | [], _ => true
  | _ :: _, [] => false
  | a :: as, b :: bs => a == b && charsPrefixOf as bs

/-- `needle` occurs contiguously inside `hay` (on character lists). -/
def charsInfixOf (needle hay : List Char) : Bool :=
  charsPrefixOf needle hay ||
    match hay with
    | [] => false
    | _ :: rest => charsInfixOf needle rest

/-- Boolean substring test on the underlying character lists. -/
def strContainsSub (hay needle : String) : Bool :=
  charsInfixOf needle.toList hay.toList

/-! ## The example pipeline of `examples/pipeline/kg_builder.py` -/

/-- `DocumentChunkModel`: the output record of the chunker. -/
structure DocumentChunkModel where
  chunks : List String
  deriving DecidableEq, Repr

/-- Python `str.split(".")` on a character list: cut at every period; no
period yields a single piece, and adjacent periods yield empty pieces. -/
def pySplitDotAux : List Char → List Char → List (List Char)
  | [], acc => [acc.reverse]
  | c :: cs, acc =>
    if c = '.' then acc.reverse :: pySplitDotAux cs []
    else pySplitDotAux cs (c :: acc)

/-- Python `str.split(".")`. -/
def pySplitDot (s : List Char) : List (List Char) :=
  pySplitDotAux s []

/-- The whitespace characters Python `str.strip()` removes (the ASCII ones,
which are the only ones occurring in this repository's inputs). -/
def pyIsSpace (c : Char) : Bool :=
  c = ' ' || c = '\t' || c = '\n' || c = '\r' || c = '\x0b' || c = '\x0c'

/-- Python `str.strip()`: drop leading and trailing whitespace. -/
def pyStrip (s : List Char) : List Char :=
  ((s.dropWhile pyIsSpace).reverse.dropWhile pyIsSpace).reverse

/-- `DocumentChunker.run`: split the text on periods, strip each piece, keep
the non-empty ones (Python's truthiness test on the stripped string). -/
def documentChunker_run (text : String) : DocumentChunkModel :=
  { chunks := (((pySplitDot text.toList).map pyStrip).filter
      (fun t => !t.isEmpty)).map (fun t => String.mk t) }

/-- `SchemaModel`: the output record of the schema builder. -/
structure SchemaModel where
  data_schema : String
  deriving DecidableEq, Repr

/-- `SchemaBuilder.run`: wrap the schema string unchanged. -/
def schemaBuilder_run (schema : String) : SchemaModel :=
  { data_schema := schema }

/-- `EntityModel`: a label plus a string-to-string property dictionary
(embedded as an association list). -/
structure EntityModel where
  label : String
  properties : List (String × String)
  deriving DecidableEq, Repr

/-- The dictionary shape returned by `ERExtractor._process_chunk` and merged
by `ERExtractor.run`. -/
structure ERResultDict where
  entities : List EntityModel
  relations : List EntityModel
  deriving DecidableEq, Repr

/-- `ERExtractor._process_chunk`: ignores its arguments and returns one fixed
Person entity and no relations. -/
def erExtractor_process_chunk (chunk : String) (schema : String) : ERResultDict :=
  { entities := [{ label := "Person", properties := [("name", "John Doe")] }],
    relations := [] }

/-- The fixed entity `ERExtractor._process_chunk` produces for every chunk. -/
def johnDoeEntity : EntityModel :=
  { label := "Person", properties := [("name", "John Doe")] }

/-- `ERModel`: the output record of the extractor. -/
structure ERModel where
  entities : List EntityModel
  relations : List EntityModel
  deriving DecidableEq, Repr

/-- The body of the merge loop of `ERExtractor.run`: append the entity and
relation lists of one per-chunk result onto the accumulator. -/
def mergeERResults (acc res : ERResultDict) : ERResultDict :=
  { entities := acc.entities ++ res.entities,
    relations := acc.relations ++ res.relations }

/-- `ERExtractor.run`: process every chunk (the `asyncio.gather` over
independent pure tasks is just the list of per-chunk results, in order), then
concatenate the entity and relation lists. -/
def erExtractor_run (chunks : List String) (schema : String) : ERModel :=
  let result := chunks.map (fun chunk => erExtractor_process_chunk chunk schema)
  let merged := result.foldl mergeERResults
    ({ entities := [], relations := [] } : ERResultDict)
  { entities := merged.entities, relations := merged.relations }

/-- `WriterModel`: the output record of the writer. -/
structure WriterModel where
  status : String
  entities : List EntityModel
  relations : List EntityModel
  deriving DecidableEq, Repr

/-- `Writer.run`: sets status to "OK" and passes the entity and relation
lists through (re-wrapping each dict as an `EntityModel` is the identity in
this embedding). -/
def writer_run (entities : List EntityModel) (relations : List EntityModel) : WriterModel :=
  { status := "OK", entities := entities, relations := relations }

/-- Modelled from the spec: the pipeline runner (`neo4j_genai.pipeline`,
which is not among the source files) executes the components of the DAG in
dependency order, feeding each connected output field into the declared input
field of the downstream component. For the kg_builder wiring
chunker→extractor (chunks), schema→extractor (schema), extractor→writer
(entities, relations), a run is the composition below. -/
def kgBuilderPipeline_run (text : String) (schema : String) : WriterModel :=
  let chunkerOut := documentChunker_run text
  let schemaOut := schemaBuilder_run schema
  let extractorOut := erExtractor_run chunkerOut.chunks schemaOut.data_schema
  writer_run extractorOut.entities extractorOut.relations

/-- The input text of the `__main__` block of `kg_builder.py` (a Python
triple-quoted literal with embedded newlines and indentation). -/
def kgBuilderExampleText : String :=
  "Graphs are everywhere.\n            GraphRAG is the future of Artificial Intelligence.\n            Robots are already running the world."

/-- The schema string of the `__main__` block of `kg_builder.py`. -/
def kgBuilderExampleSchema : String := "Person OWNS House"

/-! ## A modelled database engine for the drop statement -/

/-- Modelled from the spec: the external database engine's execution of the
drop statement (the engine itself is out of scope of the sources). Per the
spec, a drop statement carrying an "if exists" qualifier removes the named
index when present and succeeds without error when it is absent; any other
statement shape is rejected with a client error here. The engine state is the
set of existing index names. -/
def dbExecDrop (db : List String) (s : Statement) : List String × ExecOutcome :=
  if s.query = "DROP INDEX $name IF EXISTS" then
    match s.params with
    | [(k, ParamValue.str n)] =>
      if k = "name" then (db.filter (fun x => x != n), ExecOutcome.ok)
      else (db, ExecOutcome.clientError "missing parameter: name")
    | _ => (db, ExecOutcome.clientError "invalid parameters")
  else (db, ExecOutcome.clientError "unsupported statement")

/-- Run `drop_index_if_exists` against the modelled engine in state `db`:
the resulting engine state (every sent statement applied in order) together
with the call's observable result. -/
def runDropOnDb (db : List String) (name : String) : List String × CallResult :=
  let r := drop_index_if_exists (fun s => (dbExecDrop db s).2) name
  (r.sent.foldl (fun d s => (dbExecDrop d s).1) db, r)

/-! ## Helper lemmas -/

/-- All four helpers send exactly the one statement of their try-block,
whatever the driver does. -/
theorem sendCatchingClient_sent (driver : Driver) (stmt : Statement)
    (wrap : String → PyError) : (sendCatchingClient driver stmt wrap).sent = [stmt] := by
  cases h : driver stmt <;> simp [sendCatchingClient, h]

/-- The modelled vector-index validation succeeds exactly on a positive
dimension count and a recognised similarity function. -/
theorem vectorIndexModelValid_iff (dimensions : Int) (similarity_fn : String) :
    vectorIndexModelValid dimensions similarity_fn = true ↔
      0 < dimensions ∧ (similarity_fn = "euclidean" ∨ similarity_fn = "cosine") := by
  simp [vectorIndexModelValid]

/-- On valid inputs `create_vector_index` reduces to its send step. -/
theorem create_vector_index_valid (driver : Driver)
    (name label embedding_property : String) (dimensions : Int) (similarity_fn : String)
    (hd : 0 < dimensions) (hs : similarity_fn = "euclidean" ∨ similarity_fn = "cosine") :
    create_vector_index driver name label embedding_property dimensions similarity_fn =
      sendCatchingClient driver
        (vectorIndexStatement name label embedding_property dimensions similarity_fn)
        (fun m => PyError.neo4jIndexError ("Neo4j vector index creation failed: " ++ m)) := by
  rw [create_vector_index, if_pos ((vectorIndexModelValid_iff _ _).mpr ⟨hd, hs⟩)]

/-- On a non-empty property list `create_fulltext_index` reduces to its send
step. -/
theorem create_fulltext_index_valid (driver : Driver) (name label : String)
    (node_properties : List String) (hp : node_properties ≠ []) :
    create_fulltext_index driver name label node_properties =
      sendCatchingClient driver (fulltextIndexStatement name label node_properties)
        (fun m => PyError.neo4jIndexError ("Neo4j fulltext index creation failed " ++ m)) := by
  rw [create_fulltext_index, if_pos]
  simp [fulltextIndexModelValid, hp]

/-- The send step never raises before sending. -/
theorem raisedBeforeAnySend_sendCatchingClient (driver : Driver) (stmt : Statement)
    (wrap : String → PyError) :
    raisedBeforeAnySend (sendCatchingClient driver stmt wrap) = false := by
  cases h : driver stmt <;> simp [sendCatchingClient, h, raisedBeforeAnySend]

/-- Merging the per-chunk extractor results onto an accumulator appends one
`johnDoeEntity` per chunk and leaves the relations unchanged. -/
theorem erExtractor_fold_spec (schema : String) (chunks : List String) (acc : ERResultDict) :
    (chunks.map (fun chunk => erExtractor_process_chunk chunk schema)).foldl
        mergeERResults acc =
      { entities := acc.entities ++ chunks.map (fun _ => johnDoeEntity),
        relations := acc.relations } := by
  induction chunks generalizing acc with
  | nil => simp
  | cons c cs ih =>
    simp only [List.map_cons, List.foldl_cons, ih]
    simp [mergeERResults, erExtractor_process_chunk, johnDoeEntity]

/-! ## Claim theorems -/

set_option maxRecDepth 100000 in
/-- C1: for every positive integer `dimensions` and every `similarity_fn` in
euclidean/cosine, `create_vector_index` issues exactly one statement to the
injected driver and raises no configuration error (nothing is raised before
the send); and the call with name "embedding-name", label "Document",
property "vectorProperty", dimensions 1536, similarity "euclidean" issues a
single statement whose rendered label is `Document`, whose rendered property
is `vectorProperty`, and whose `dimensions` and `similarity_fn` parameters
are bound to `1536` and `"euclidean"`. -/
theorem c1_create_vector_index_valid_inputs :
    (∀ (driver : Driver) (name label embedding_property : String)
        (dimensions : Int) (similarity_fn : String),
        0 < dimensions → similarity_fn = "euclidean" ∨ similarity_fn = "cosine" →
        (create_vector_index driver name label embedding_property dimensions similarity_fn).sent.length = 1 ∧
        raisedBeforeAnySend
          (create_vector_index driver name label embedding_property dimensions similarity_fn) = false) ∧
    (create_vector_index (fun _ => ExecOutcome.ok)
        "embedding-name" "Document" "vectorProperty" 1536 "euclidean").sent =
      [{ query := "CREATE VECTOR INDEX $name FOR (n:Document) ON n.vectorProperty OPTIONS \x7b indexConfig: \x7b `vector.dimensions`: toInteger($dimensions), `vector.similarity_function`: $similarity_fn \x7d \x7d",
         params := [("name", ParamValue.str "embedding-name"),
                    ("dimensions", ParamValue.int 1536),
                    ("similarity_fn", ParamValue.str "euclidean")] }] := by
  constructor
  · intro driver name label embedding_property dimensions similarity_fn hd hs
    rw [create_vector_index_valid driver name label embedding_property dimensions similarity_fn hd hs]
    exact ⟨by simp [sendCatchingClient_sent], raisedBeforeAnySend_sendCatchingClient _ _ _⟩
  · decide

/-- Witness for C1 at a concrete valid input. -/
theorem c1_witness :
    (create_vector_index (fun _ => ExecOutcome.ok) "idx" "Label" "prop" 3 "cosine").sent.length = 1 ∧
    raisedBeforeAnySend
      (create_vector_index (fun _ => ExecOutcome.ok) "idx" "Label" "prop" 3 "cosine") = false :=
  c1_create_vector_index_valid_inputs.1 (fun _ => ExecOutcome.ok) "idx" "Label" "prop" 3 "cosine"
    (by decide) (Or.inr rfl)

/-- C2: whenever `dimensions` is not positive or `similarity_fn` is neither
euclidean nor cosine, `create_vector_index` raises the `Neo4jIndexError`
coming from the validation failure and issues zero statements (nothing is
sent to the driver; the error is raised before any network call). -/
theorem c2_create_vector_index_invalid_inputs
    (driver : Driver) (name label embedding_property : String)
    (dimensions : Int) (similarity_fn : String)
    (h : dimensions ≤ 0 ∨ (similarity_fn ≠ "euclidean" ∧ similarity_fn ≠ "cosine")) :
    (create_vector_index driver name label embedding_property dimensions similarity_fn).sent = [] ∧
    (create_vector_index driver name label embedding_property dimensions similarity_fn).outcome =
      PyOutcome.raised (PyError.neo4jIndexError vectorIndexValidationMessage) ∧
    raisedBeforeAnySend
      (create_vector_index driver name label embedding_property dimensions similarity_fn) = true := by
  have hv : vectorIndexModelValid dimensions similarity_fn = false := by
    cases hb : vectorIndexModelValid dimensions similarity_fn
    · rfl
    · exfalso
      rcases (vectorIndexModelValid_iff dimensions similarity_fn).mp hb with ⟨hd, hs⟩
      rcases h with h | ⟨h1, h2⟩
      · omega
      · rcases hs with hs | hs
        · exact h1 hs
        · exact h2 hs
  rw [create_vector_index, if_neg (by simp [hv])]
  exact ⟨rfl, rfl, rfl⟩

/-- Witness for C2 at a concrete invalid input (dimensions 0). -/
theorem c2_witness :
    (create_vector_index (fun _ => ExecOutcome.ok) "idx" "Label" "prop" 0 "euclidean").sent = [] ∧
    (create_vector_index (fun _ => ExecOutcome.ok) "idx" "Label" "prop" 0 "euclidean").outcome =
      PyOutcome.raised (PyError.neo4jIndexError vectorIndexValidationMessage) ∧
    raisedBeforeAnySend
      (create_vector_index (fun _ => ExecOutcome.ok) "idx" "Label" "prop" 0 "euclidean") = true :=
  c2_create_vector_index_invalid_inputs (fun _ => ExecOutcome.ok) "idx" "Label" "prop" 0 "euclidean"
    (Or.inl (by decide))

set_option maxRecDepth 100000 in
/-- C3 counterexample: at the example call of C1 the single statement sent by
`create_vector_index` does not contain the index name "embedding-name"
anywhere in its rendered text — the name is passed as the bound parameter
`name` instead. This refutes the claim that the index name is interpolated
directly into the statement text rather than bound. -/
theorem c3_index_name_counterexample :
    (create_vector_index (fun _ => ExecOutcome.ok)
        "embedding-name" "Document" "vectorProperty" 1536 "euclidean").sent =
      [vectorIndexStatement "embedding-name" "Document" "vectorProperty" 1536 "euclidean"] ∧
    strContainsSub
      (vectorIndexStatement "embedding-name" "Document" "vectorProperty" 1536 "euclidean").query
      "embedding-name" = false ∧
    ("name", ParamValue.str "embedding-name") ∈
      (vectorIndexStatement "embedding-name" "Document" "vectorProperty" 1536 "euclidean").params := by
  refine ⟨by decide, by decide, by decide⟩

/-- C3 as amended: in every statement built by the index/vector operations,
values (dimensions, similarity function, vector, node identifier) are passed
as bound parameters, and so is the index name (as the parameter `name`);
label names and property names are the identifiers interpolated directly into
the statement text. -/
theorem c3_parameterization (driver : Driver) (name label embedding_property : String)
    (dimensions : Int) (similarity_fn : String) (node_properties : List String)
    (node_id : Int) (vector : List Rat)
    (hd : 0 < dimensions) (hs : similarity_fn = "euclidean" ∨ similarity_fn = "cosine")
    (hp : node_properties ≠ []) :
    ((create_vector_index driver name label embedding_property dimensions similarity_fn).sent =
        [vectorIndexStatement name label embedding_property dimensions similarity_fn] ∧
      ("name", ParamValue.str name) ∈
        (vectorIndexStatement name label embedding_property dimensions similarity_fn).params ∧
      ("dimensions", ParamValue.int dimensions) ∈
        (vectorIndexStatement name label embedding_property dimensions similarity_fn).params ∧
      ("similarity_fn", ParamValue.str similarity_fn) ∈
        (vectorIndexStatement name label embedding_property dimensions similarity_fn).params ∧
      Interpolated label (vectorIndexStatement name label embedding_property dimensions similarity_fn).query ∧
      Interpolated embedding_property
        (vectorIndexStatement name label embedding_property dimensions similarity_fn).query) ∧
    ((create_fulltext_index driver name label node_properties).sent =
        [fulltextIndexStatement name label node_properties] ∧
      ("name", ParamValue.str name) ∈ (fulltextIndexStatement name label node_properties).params ∧
      Interpolated label (fulltextIndexStatement name label node_properties).query) ∧
    ((drop_index_if_exists driver name).sent = [dropIndexStatement name] ∧
      ("name", ParamValue.str name) ∈ (dropIndexStatement name).params) ∧
    ((upsert_vector driver node_id embedding_property vector).sent =
        [upsertVectorStatement node_id embedding_property vector] ∧
      ("id", ParamValue.int node_id) ∈
        (upsertVectorStatement node_id embedding_property vector).params ∧
      ("embedding_property", ParamValue.str embedding_property) ∈
        (upsertVectorStatement node_id embedding_property vector).params ∧
      ("vector", ParamValue.vec vector) ∈
        (upsertVectorStatement node_id embedding_property vector).params) := by
  refine ⟨⟨?_, ?_, ?_, ?_, ?_, ?_⟩, ⟨?_, ?_, ?_⟩, ⟨?_, ?_⟩, ⟨?_, ?_, ?_, ?_⟩⟩
  · rw [create_vector_index_valid driver name label embedding_property dimensions similarity_fn hd hs,
      sendCatchingClient_sent]
  · simp [vectorIndexStatement]
  · simp [vectorIndexStatement]
  · simp [vectorIndexStatement]
  · exact ⟨"CREATE VECTOR INDEX $name FOR (n:",
      ") ON n." ++ embedding_property ++
        " OPTIONS \x7b indexConfig: \x7b `vector.dimensions`: toInteger($dimensions), `vector.similarity_function`: $similarity_fn \x7d \x7d",
      by simp [vectorIndexStatement, vectorIndexQueryText, String.append_assoc]⟩
  · exact ⟨"CREATE VECTOR INDEX $name FOR (n:" ++ label ++ ") ON n.",
      " OPTIONS \x7b indexConfig: \x7b `vector.dimensions`: toInteger($dimensions), `vector.similarity_function`: $similarity_fn \x7d \x7d",
      by simp [vectorIndexStatement, vectorIndexQueryText, String.append_assoc]⟩
  · rw [create_fulltext_index_valid driver name label node_properties hp, sendCatchingClient_sent]
  · simp [fulltextIndexStatement]
  · exact ⟨"CREATE FULLTEXT INDEX $name " ++ "FOR (n:`",
      "`) ON EACH " ++
        "[" ++ String.intercalate ", " (node_properties.map (fun prop => "n.`" ++ prop ++ "`")) ++ "]",
      by simp [fulltextIndexStatement, fulltextIndexQueryText, String.append_assoc]⟩
  · rw [drop_index_if_exists, sendCatchingClient_sent]
  · simp [dropIndexStatement]
  · rw [upsert_vector, sendCatchingClient_sent]
  · simp [upsertVectorStatement]
  · simp [upsertVectorStatement]
  · simp [upsertVectorStatement]

/-- Witness for the amended C3 at concrete valid inputs. -/
theorem c3_witness :
    ((create_vector_index (fun _ => ExecOutcome.ok) "idx" "L" "p" 3 "cosine").sent =
        [vectorIndexStatement "idx" "L" "p" 3 "cosine"] ∧
      ("name", ParamValue.str "idx") ∈ (vectorIndexStatement "idx" "L" "p" 3 "cosine").params ∧
      ("dimensions", ParamValue.int 3) ∈ (vectorIndexStatement "idx" "L" "p" 3 "cosine").params ∧
      ("similarity_fn", ParamValue.str "cosine") ∈
        (vectorIndexStatement "idx" "L" "p" 3 "cosine").params ∧
      Interpolated "L" (vectorIndexStatement "idx" "L" "p" 3 "cosine").query ∧
      Interpolated "p" (vectorIndexStatement "idx" "L" "p" 3 "cosine").query) ∧
    ((create_fulltext_index (fun _ => ExecOutcome.ok) "idx" "L" ["q"]).sent =
        [fulltextIndexStatement "idx" "L" ["q"]] ∧
      ("name", ParamValue.str "idx") ∈ (fulltextIndexStatement "idx" "L" ["q"]).params ∧
      Interpolated "L" (fulltextIndexStatement "idx" "L" ["q"]).query) ∧
    ((drop_index_if_exists (fun _ => ExecOutcome.ok) "idx").sent = [dropIndexStatement "idx"] ∧
      ("name", ParamValue.str "idx") ∈ (dropIndexStatement "idx").params) ∧
    ((upsert_vector (fun _ => ExecOutcome.ok) 7 "p" [1]).sent =
        [upsertVectorStatement 7 "p" [1]] ∧
      ("id", ParamValue.int 7) ∈ (upsertVectorStatement 7 "p" [1]).params ∧
      ("embedding_property", ParamValue.str "p") ∈ (upsertVectorStatement 7 "p" [1]).params ∧
      ("vector", ParamValue.vec [1]) ∈ (upsertVectorStatement 7 "p" [1]).params) :=
  c3_parameterization (fun _ => ExecOutcome.ok) "idx" "L" "p" 3 "cosine" ["q"] 7 [1]
    (by decide) (Or.inr rfl) (by decide)

/-- C4: `drop_index_if_exists` is idempotent with respect to absence — run
against a modelled engine in any state, it succeeds, and a second run against
the resulting state (in which the named index is absent) succeeds again; each
call issues a single drop statement whose text carries the "IF EXISTS"
qualifier. -/
theorem c4_drop_index_idempotent (db : List String) (name : String) :
    ((runDropOnDb db name).2).outcome = PyOutcome.ok ∧
    ((runDropOnDb db name).2).sent = [dropIndexStatement name] ∧
    name ∉ (runDropOnDb db name).1 ∧
    ((runDropOnDb (runDropOnDb db name).1 name).2).outcome = PyOutcome.ok ∧
    ((runDropOnDb (runDropOnDb db name).1 name).2).sent = [dropIndexStatement name] ∧
    strContainsSub (dropIndexStatement name).query "IF EXISTS" = true := by
  have hexec : ∀ d : List String, dbExecDrop d (dropIndexStatement name) =
      (d.filter (fun x => x != name), ExecOutcome.ok) := by
    intro d
    simp [dbExecDrop, dropIndexStatement]
  have hrun : ∀ d : List String, runDropOnDb d name =
      (d.filter (fun x => x != name),
       { sent := [dropIndexStatement name], outcome := PyOutcome.ok }) := by
    intro d
    rw [runDropOnDb, drop_index_if_exists]
    simp [sendCatchingClient, hexec d]
  refine ⟨?_, ?_, ?_, ?_, ?_, ?_⟩
  · rw [hrun db]
  · rw [hrun db]
  · rw [hrun db]
    simp [List.mem_filter]
  · rw [hrun db, hrun (db.filter (fun x => x != name))]
  · rw [hrun db, hrun (db.filter (fun x => x != name))]
  · show strContainsSub "DROP INDEX $name IF EXISTS" "IF EXISTS" = true
    decide

/-- Witness for C4 at a concrete engine state holding the index. -/
theorem c4_witness :
    ((runDropOnDb ["embedding-name"] "embedding-name").2).outcome = PyOutcome.ok ∧
    ((runDropOnDb ["embedding-name"] "embedding-name").2).sent =
      [dropIndexStatement "embedding-name"] ∧
    "embedding-name" ∉ (runDropOnDb ["embedding-name"] "embedding-name").1 ∧
    ((runDropOnDb (runDropOnDb ["embedding-name"] "embedding-name").1 "embedding-name").2).outcome =
      PyOutcome.ok ∧
    ((runDropOnDb (runDropOnDb ["embedding-name"] "embedding-name").1 "embedding-name").2).sent =
      [dropIndexStatement "embedding-name"] ∧
    strContainsSub (dropIndexStatement "embedding-name").query "IF EXISTS" = true :=
  c4_drop_index_idempotent ["embedding-name"] "embedding-name"

/-- C5: `upsert_vector` with node id 0, property "vectorProperty" and vector
0.1, 0.2, 0.3 issues exactly one statement; that statement matches the node
by its database-assigned identifier (the `elementId(n) = $id` clause) and
carries exactly the bound parameters id 0, embedding_property
"vectorProperty", vector 0.1, 0.2, 0.3. -/
theorem c5_upsert_vector_example :
    (upsert_vector (fun _ => ExecOutcome.ok) 0 "vectorProperty" [0.1, 0.2, 0.3]).sent.length = 1 ∧
    (upsert_vector (fun _ => ExecOutcome.ok) 0 "vectorProperty" [0.1, 0.2, 0.3]).sent =
      [{ query := upsertVectorQueryText,
         params := [("id", ParamValue.int 0),
                    ("embedding_property", ParamValue.str "vectorProperty"),
                    ("vector", ParamValue.vec [0.1, 0.2, 0.3])] }] ∧
    strContainsSub upsertVectorQueryText "WHERE elementId(n) = $id" = true ∧
    (upsert_vector (fun _ => ExecOutcome.ok) 0 "vectorProperty" [0.1, 0.2, 0.3]).outcome =
      PyOutcome.ok :=
  ⟨rfl, rfl, by decide, rfl⟩

/-- C6: `create_fulltext_index` with an empty property list raises the
`Neo4jIndexError` coming from the validation failure and issues zero
statements — the error is raised before any network call. -/
theorem c6_create_fulltext_index_empty_properties (driver : Driver) (name label : String) :
    (create_fulltext_index driver name label []).sent = [] ∧
    (create_fulltext_index driver name label []).outcome =
      PyOutcome.raised (PyError.neo4jIndexError fulltextIndexValidationMessage) ∧
    raisedBeforeAnySend (create_fulltext_index driver name label []) = true := by
  rw [create_fulltext_index]
  exact ⟨rfl, rfl, rfl⟩

/-- C7: when statement execution raises a database client error with message
`m`, each of the four helpers re-raises its typed domain error —
`Neo4jIndexError` for the three index operations, `Neo4jInsertionError` for
the vector upsert — whose message extends the original client message `m`,
and the statement had already been sent (exactly one statement issued). -/
theorem c7_client_errors_wrapped (name label embedding_property : String)
    (dimensions : Int) (similarity_fn : String) (node_properties : List String)
    (node_id : Int) (vector : List Rat) (m : String)
    (hd : 0 < dimensions) (hs : similarity_fn = "euclidean" ∨ similarity_fn = "cosine")
    (hp : node_properties ≠ []) :
    ((create_vector_index (fun _ => ExecOutcome.clientError m)
        name label embedding_property dimensions similarity_fn).outcome =
      PyOutcome.raised (PyError.neo4jIndexError ("Neo4j vector index creation failed: " ++ m)) ∧
     (create_vector_index (fun _ => ExecOutcome.clientError m)
        name label embedding_property dimensions similarity_fn).sent.length = 1) ∧
    ((create_fulltext_index (fun _ => ExecOutcome.clientError m) name label node_properties).outcome =
      PyOutcome.raised (PyError.neo4jIndexError ("Neo4j fulltext index creation failed " ++ m)) ∧
     (create_fulltext_index (fun _ => ExecOutcome.clientError m) name label node_properties).sent.length = 1) ∧
    ((drop_index_if_exists (fun _ => ExecOutcome.clientError m) name).outcome =
      PyOutcome.raised (PyError.neo4jIndexError ("Dropping Neo4j index failed: " ++ m)) ∧
     (drop_index_if_exists (fun _ => ExecOutcome.clientError m) name).sent.length = 1) ∧
    ((upsert_vector (fun _ => ExecOutcome.clientError m) node_id embedding_property vector).outcome =
      PyOutcome.raised (PyError.neo4jInsertionError ("Upserting vector to Neo4j failed: " ++ m)) ∧
     (upsert_vector (fun _ => ExecOutcome.clientError m) node_id embedding_property vector).sent.length = 1) := by
  refine ⟨?_, ?_, ?_, ?_⟩
  · rw [create_vector_index_valid _ name label embedding_property dimensions similarity_fn hd hs]
    exact ⟨rfl, rfl⟩
  · rw [create_fulltext_index_valid _ name label node_properties hp]
    exact ⟨rfl, rfl⟩
  · rw [drop_index_if_exists]
    exact ⟨rfl, rfl⟩
  · rw [upsert_vector]
    exact ⟨rfl, rfl⟩

/-- Witness for C7 at concrete valid inputs and client message "boom". -/
theorem c7_witness :
    ((create_vector_index (fun _ => ExecOutcome.clientError "boom") "idx" "L" "p" 3 "cosine").outcome =
      PyOutcome.raised (PyError.neo4jIndexError ("Neo4j vector index creation failed: " ++ "boom")) ∧
     (create_vector_index (fun _ => ExecOutcome.clientError "boom") "idx" "L" "p" 3 "cosine").sent.length = 1) ∧
    ((create_fulltext_index (fun _ => ExecOutcome.clientError "boom") "idx" "L" ["q"]).outcome =
      PyOutcome.raised (PyError.neo4jIndexError ("Neo4j fulltext index creation failed " ++ "boom")) ∧
     (create_fulltext_index (fun _ => ExecOutcome.clientError "boom") "idx" "L" ["q"]).sent.length = 1) ∧
    ((drop_index_if_exists (fun _ => ExecOutcome.clientError "boom") "idx").outcome =
      PyOutcome.raised (PyError.neo4jIndexError ("Dropping Neo4j index failed: " ++ "boom")) ∧
     (drop_index_if_exists (fun _ => ExecOutcome.clientError "boom") "idx").sent.length = 1) ∧
    ((upsert_vector (fun _ => ExecOutcome.clientError "boom") 7 "p" [1]).outcome =
      PyOutcome.raised (PyError.neo4jInsertionError ("Upserting vector to Neo4j failed: " ++ "boom")) ∧
     (upsert_vector (fun _ => ExecOutcome.clientError "boom") 7 "p" [1]).sent.length = 1) :=
  c7_client_errors_wrapped "idx" "L" "p" 3 "cosine" ["q"] 7 [1] "boom"
    (by decide) (Or.inr rfl) (by decide)

/-- C9: only the database client-error type is translated into the domain
errors — when statement execution raises any other exception with message
`m`, each of the four helpers lets it propagate unwrapped (the outcome is the
original exception, not a `Neo4jIndexError` or `Neo4jInsertionError`). -/
theorem c9_other_exceptions_propagate (name label embedding_property : String)
    (dimensions : Int) (similarity_fn : String) (node_properties : List String)
    (node_id : Int) (vector : List Rat) (m : String)
    (hd : 0 < dimensions) (hs : similarity_fn = "euclidean" ∨ similarity_fn = "cosine")
    (hp : node_properties ≠ []) :
    (create_vector_index (fun _ => ExecOutcome.otherError m)
        name label embedding_property dimensions similarity_fn).outcome =
      PyOutcome.raised (PyError.otherError m) ∧
    (create_fulltext_index (fun _ => ExecOutcome.otherError m) name label node_properties).outcome =
      PyOutcome.raised (PyError.otherError m) ∧
    (drop_index_if_exists (fun _ => ExecOutcome.otherError m) name).outcome =
      PyOutcome.raised (PyError.otherError m) ∧
    (upsert_vector (fun _ => ExecOutcome.otherError m) node_id embedding_property vector).outcome =
      PyOutcome.raised (PyError.otherError m) := by
  refine ⟨?_, ?_, ?_, ?_⟩
  · rw [create_vector_index_valid _ name label embedding_property dimensions similarity_fn hd hs]
    rfl
  · rw [create_fulltext_index_valid _ name label node_properties hp]
    rfl
  · rw [drop_index_if_exists]
    rfl
  · rw [upsert_vector]
    rfl

/-- Witness for C9 at concrete valid inputs and a transport-style error. -/
theorem c9_witness :
    (create_vector_index (fun _ => ExecOutcome.otherError "conn reset") "idx" "L" "p" 3 "cosine").outcome =
      PyOutcome.raised (PyError.otherError "conn reset") ∧
    (create_fulltext_index (fun _ => ExecOutcome.otherError "conn reset") "idx" "L" ["q"]).outcome =
      PyOutcome.raised (PyError.otherError "conn reset") ∧
    (drop_index_if_exists (fun _ => ExecOutcome.otherError "conn reset") "idx").outcome =
      PyOutcome.raised (PyError.otherError "conn reset") ∧
    (upsert_vector (fun _ => ExecOutcome.otherError "conn reset") 7 "p" [1]).outcome =
      PyOutcome.raised (PyError.otherError "conn reset") :=
  c9_other_exceptions_propagate "idx" "L" "p" 3 "cosine" ["q"] 7 [1] "conn reset"
    (by decide) (Or.inr rfl) (by decide)

set_option maxRecDepth 100000 in
/-- C8: with the kg_builder wiring chunker→extractor, schema→extractor,
extractor→writer, running the composed flow on the example input text (which
the chunker cuts into 3 sentence-like fragments) and the example schema
string yields a writer output whose status is "OK" and whose entity and
relation lists equal exactly the lists the extractor emitted. -/
theorem c8_pipeline_example_run :
    (documentChunker_run kgBuilderExampleText).chunks.length = 3 ∧
    (kgBuilderPipeline_run kgBuilderExampleText kgBuilderExampleSchema).status = "OK" ∧
    (kgBuilderPipeline_run kgBuilderExampleText kgBuilderExampleSchema).entities =
      (erExtractor_run (documentChunker_run kgBuilderExampleText).chunks
        (schemaBuilder_run kgBuilderExampleSchema).data_schema).entities ∧
    (kgBuilderPipeline_run kgBuilderExampleText kgBuilderExampleSchema).relations =
      (erExtractor_run (documentChunker_run kgBuilderExampleText).chunks
        (schemaBuilder_run kgBuilderExampleSchema).data_schema).relations := by
  refine ⟨by decide, rfl, rfl, rfl⟩

/-- C10: for every list of chunks and every schema string, `ERExtractor.run`
returns one entity per input chunk — each with label "Person" and the single
property name = "John Doe" — and an empty relation list; in particular the
number of entities equals the number of chunks. -/
theorem c10_extractor_one_entity_per_chunk (chunks : List String) (schema : String) :
    (erExtractor_run chunks schema).entities = chunks.map (fun _ => johnDoeEntity) ∧
    (erExtractor_run chunks schema).relations = [] ∧
    (erExtractor_run chunks schema).entities.length = chunks.length := by
  rw [erExtractor_run]
  simp only [erExtractor_fold_spec schema chunks]
  simp

end Neo4jGenai
